import Mathlib

/-!
# IncuNest-Sim: heater element and temperature controller chips

A shallow embedding of `wokwi/chips/heater-element.chip.c` and
`wokwi/chips/temperature-controller.chip.c`.

Modelling conventions:

* `float` and `double` values are modelled by rationals (`ℚ`) and every
  floating-point operation by the exact rational operation; rounding, NaN and
  infinities are outside the model.
* `(uint32_t) x` is truncation toward zero, reduced modulo `2 ^ 32`.
* Pin handles, the timer handle and the framebuffer handle are host resources
  that never flow into the thermal model or the control law; they are left out
  of the state records.  The values the host hands to a callback (the attribute
  value, the ADC reading, the pin level) are arguments of the embedded
  callback; the values a callback hands to the host (the DAC value, the pin
  level written) are returned next to the new state.
-/

namespace IncuNest

/-- Modelled from the spec: the digital level `LOW` of `wokwi-api.h`, which is not
part of the sources (the spec speaks of a binary level, high/low). -/
def LOW : Nat := 0

/-- Modelled from the spec: the digital level `HIGH` of `wokwi-api.h`, which is not
part of the sources (the spec speaks of a binary level, high/low). -/
def HIGH : Nat := 1

/-- The C conversion `(uint32_t) x` of a floating value: truncation toward zero,
reduced modulo `2 ^ 32`. -/
def to_uint32 (x : ℚ) : Nat :=
  ((if 0 ≤ x then ⌊x⌋ else ⌈x⌉) % (2 ^ 32 : Int)).toNat

/-! ## Heater element (`heater-element.chip.c`) -/

namespace Heater

/-- The numeric fields of `chip_state_t` of the heater element. -/
structure chip_state_t where
  temperature : ℚ
  power_watts : ℚ
  is_on : Bool
deriving DecidableEq

/-- `#define UPDATE_INTERVAL_US 500000`. -/
def UPDATE_INTERVAL_US : ℚ := 500000

/-- `#define AMBIENT_TEMP 24.0`. -/
def AMBIENT_TEMP : ℚ := 24

/-- `#define HEAT_RATE 0.5`. -/
def HEAT_RATE : ℚ := 1 / 2

/-- `#define COOL_RATE 0.1`. -/
def COOL_RATE : ℚ := 1 / 10

/-- State set up by `chip_init`; `power` is the value `attr_read(power_attr)`
returns (50.0 unless configured otherwise). -/
def chip_init (power : ℚ) : chip_state_t :=
  { temperature := AMBIENT_TEMP, power_watts := power, is_on := false }

/-- Pin watch callback `on_control_change`: latches `value == HIGH`. -/
def on_control_change (chip : chip_state_t) (value : Nat) : chip_state_t :=
  { chip with is_on := decide (value = HIGH) }

/-- Lines 81-84 of `chip_timer_callback`: the value `dac_value` written to the
analog feedback pin for a given temperature. -/
def dac_value (temperature : ℚ) : Nat :=
  let normalized : ℚ := (temperature - 20) / 30
  let normalized : ℚ := if normalized < 0 then 0 else normalized
  let normalized : ℚ := if normalized > 1 then 1 else normalized
  to_uint32 (normalized * 4095)

/-- Lines 66-78 of `chip_timer_callback`: the temperature update. -/
def update_temperature (chip : chip_state_t) : chip_state_t :=
  let dt : ℚ := UPDATE_INTERVAL_US / 1000000
  if chip.is_on then
    let heat_rate : ℚ := HEAT_RATE * (chip.power_watts / 50)
    let temperature : ℚ := chip.temperature + heat_rate * dt
    { chip with temperature := if temperature > 50 then 50 else temperature }
  else
    let temp_diff : ℚ := chip.temperature - AMBIENT_TEMP
    { chip with temperature := chip.temperature - COOL_RATE * temp_diff * dt }

/-- The periodic callback `chip_timer_callback`: the new state and the value
passed to `pin_dac_write`. -/
def chip_timer_callback (chip : chip_state_t) : chip_state_t × Nat :=
  let chip := update_temperature chip
  (chip, dac_value chip.temperature)

/-- An event delivered by the host to the heater. -/
inductive Event where
  | tick : Event
  | control (value : Nat) : Event
deriving DecidableEq

/-- The heater state after one host event. -/
def step (chip : chip_state_t) : Event → chip_state_t
  | Event.tick => (chip_timer_callback chip).1
  | Event.control value => on_control_change chip value

/-- The heater state after a finite sequence of host events, oldest first. -/
def run (chip : chip_state_t) (evs : List Event) : chip_state_t :=
  evs.foldl step chip

/-- The heater state after `n` consecutive ticks (no control change in between). -/
def ticks : Nat → chip_state_t → chip_state_t
  | 0, chip => chip
  | n + 1, chip => (chip_timer_callback (ticks n chip)).1

end Heater

/-! ## Temperature controller (`temperature-controller.chip.c`) -/

namespace Controller

/-- The numeric fields of `chip_state_t` of the temperature controller. -/
structure chip_state_t where
  current_temp : ℚ
  setpoint : ℚ
  integral : ℚ
  last_error : ℚ
  last_update_time : Nat
deriving DecidableEq

/-- `#define KP 2.0`. -/
def KP : ℚ := 2

/-- `#define KI 0.5`. -/
def KI : ℚ := 1 / 2

/-- `#define KD 1.0`. -/
def KD : ℚ := 1

/-- `#define UPDATE_INTERVAL_US 1000000`. -/
def UPDATE_INTERVAL_US : ℚ := 1000000

/-- State set up by `chip_init`; `setpoint_attr` is the value
`attr_read(setpoint_attr)` returns (37.0 unless configured otherwise). -/
def chip_init (setpoint_attr : ℚ) : chip_state_t :=
  { current_temp := 73 / 2, setpoint := setpoint_attr, integral := 0,
    last_error := 0, last_update_time := 0 }

/-- Line 61 of `chip_timer_callback`: the temperature read from an ADC value. -/
def adc_to_temp (temp_adc : Nat) : ℚ :=
  20 + ((temp_adc : ℚ) / 4095) * 30

/-- The local variable `output` of `chip_timer_callback` together with the
state the callback leaves behind. -/
def pid (chip : chip_state_t) (temp_adc : Nat) (setpoint_attr : ℚ) : chip_state_t × ℚ :=
  let current_temp : ℚ := adc_to_temp temp_adc
  let setpoint : ℚ := setpoint_attr
  let error : ℚ := setpoint - current_temp
  let integral : ℚ := chip.integral + error * (UPDATE_INTERVAL_US / 1000000)
  let integral : ℚ := if integral > 10 then 10 else integral
  let integral : ℚ := if integral < -10 then -10 else integral
  let derivative : ℚ := (error - chip.last_error) / (UPDATE_INTERVAL_US / 1000000)
  let output : ℚ := KP * error + KI * integral + KD * derivative
  ({ chip with current_temp := current_temp, setpoint := setpoint,
               integral := integral, last_error := error }, output)

/-- The periodic callback `chip_timer_callback`: `temp_adc` is what
`pin_adc_read` returns, `setpoint_attr` what `attr_read` returns; the result is
the new state and the level passed to `pin_write`. -/
def chip_timer_callback (chip : chip_state_t) (temp_adc : Nat) (setpoint_attr : ℚ) :
    chip_state_t × Nat :=
  let r := pid chip temp_adc setpoint_attr
  let heater_on : Bool := decide (r.2 > 1 / 2)
  (r.1, if heater_on then HIGH else LOW)

/-- The locals of lines 68-80 of `chip_timer_callback`. -/
structure pid_locals where
  error : ℚ
  integral : ℚ
  derivative : ℚ
  output : ℚ
  heater_on : Bool
deriving DecidableEq

/-- Lines 68-80 of `chip_timer_callback`: the control law once `current_temp` and
`setpoint` have been read, from the stored `integral` and `last_error`. -/
def pid_step (chip : chip_state_t) (current_temp setpoint : ℚ) : pid_locals :=
  let error : ℚ := setpoint - current_temp
  let integral : ℚ := chip.integral + error * (UPDATE_INTERVAL_US / 1000000)
  let integral : ℚ := if integral > 10 then 10 else integral
  let integral : ℚ := if integral < -10 then -10 else integral
  let derivative : ℚ := (error - chip.last_error) / (UPDATE_INTERVAL_US / 1000000)
  let output : ℚ := KP * error + KI * integral + KD * derivative
  { error := error, integral := integral, derivative := derivative, output := output,
    heater_on := decide (output > 1 / 2) }

/-- The controller state after `n` ticks with a constant setpoint attribute and
a constant ADC reading. -/
def ticks (setpoint_attr : ℚ) (temp_adc : Nat) : Nat → chip_state_t → chip_state_t
  | 0, chip => chip
  | n + 1, chip =>
    (chip_timer_callback (ticks setpoint_attr temp_adc n chip) temp_adc setpoint_attr).1

end Controller

/-! ## The two chips wired together

The heater's analog output feeds the controller's analog input, the controller's
digital output feeds the heater's control pin.  The heater timer fires every
0.5 s and the controller timer every 1.0 s; at an instant where both fire the
heater callback runs first, so the controller reads the DAC value just written,
and a change of the level it writes is delivered to the heater at once.
-/

namespace Loop

/-- The two chip states and the two wires between them. -/
structure state where
  heater : Heater.chip_state_t
  controller : Controller.chip_state_t
  feedback : Nat
  control : Nat
deriving DecidableEq

/-- Both chips after `chip_init`; nothing written to the analog wire yet, the
digital wire at `LOW`. -/
def init (power setpoint_attr : ℚ) : state :=
  { heater := Heater.chip_init power, controller := Controller.chip_init setpoint_attr,
    feedback := 0, control := LOW }

/-- The heater timer fires: the DAC value goes onto the analog wire. -/
def heater_tick (s : state) : state :=
  let r := Heater.chip_timer_callback s.heater
  { s with heater := r.1, feedback := r.2 }

/-- The controller timer fires: it reads the analog wire and writes the digital
wire; the pin watch (`edge = BOTH`) calls `on_control_change` when the level
changes. -/
def controller_tick (setpoint_attr : ℚ) (s : state) : state :=
  let r := Controller.chip_timer_callback s.controller s.feedback setpoint_attr
  { s with controller := r.1, control := r.2,
           heater := if r.2 = s.control then s.heater
                     else Heater.on_control_change s.heater r.2 }

/-- The instant `k * 0.5 s` (`k = 1, 2, ...`): the heater ticks, and at every
second instant the controller ticks after it. -/
def step (setpoint_attr : ℚ) (k : Nat) (s : state) : state :=
  let s := heater_tick s
  if k % 2 = 0 then controller_tick setpoint_attr s else s

/-- The wired system after the instant `k * 0.5 s`. -/
def run (power setpoint_attr : ℚ) : Nat → state
  | 0 => init power setpoint_attr
  | k + 1 => step setpoint_attr (k + 1) (run power setpoint_attr k)

/-- The heater temperature after heater tick number `k` in the scenario of the
spec: power 50.0, setpoint 37.0. -/
def temperature (k : Nat) : ℚ :=
  (run 50 37 k).heater.temperature

end Loop

/-! ## A finite description of the wired system

At a whole second the controller state is an integer number of 273rds: the error
is `(4641 - 2 * dac) / 273` and the integral a sum of such errors, clamped.  The
temperature is located in cells of width `1 / W` degree, chosen so that a DAC
step is `Q` cells and the half degree gained in a heating second is `W / 2`
cells.  A `box` is a run of such cells together with the integral and the
latched command; `box.next` follows it through one second.
-/

namespace Loop

end Loop

/-! ## Theorems -/

/-- Heating and cooling keep the temperature between ambient and the 50.0 cap
when the configured power is not negative. -/
theorem Heater.update_temperature_bounds (chip : Heater.chip_state_t)
    (hp : 0 ≤ chip.power_watts)
    (h : 24 ≤ chip.temperature ∧ chip.temperature ≤ 50) :
    24 ≤ (Heater.update_temperature chip).temperature ∧
      (Heater.update_temperature chip).temperature ≤ 50 := by
  obtain ⟨h1, h2⟩ := h
  unfold Heater.update_temperature
  by_cases hon : chip.is_on = true
  · simp only [hon, if_true]
    by_cases hc : chip.temperature + Heater.HEAT_RATE * (chip.power_watts / 50) *
        (Heater.UPDATE_INTERVAL_US / 1000000) > 50
    · simp only [hc, if_true]; norm_num
    · simp only [hc, if_false]
      refine ⟨?_, le_of_not_lt hc⟩
      have : 0 ≤ Heater.HEAT_RATE * (chip.power_watts / 50) *
          (Heater.UPDATE_INTERVAL_US / 1000000) := by
        unfold Heater.HEAT_RATE Heater.UPDATE_INTERVAL_US
        positivity
      linarith
  · simp only [hon]
    simp only [Heater.AMBIENT_TEMP, Heater.COOL_RATE, Heater.UPDATE_INTERVAL_US]
    constructor <;> norm_num <;> linarith

/-- A heater event changes neither the configured power nor, for a non-negative
power, the fact that the temperature lies between ambient and the cap. -/
theorem Heater.step_preserves (chip : Heater.chip_state_t) (ev : Heater.Event)
    (hp : 0 ≤ chip.power_watts)
    (h : 24 ≤ chip.temperature ∧ chip.temperature ≤ 50) :
    0 ≤ (Heater.step chip ev).power_watts ∧
      24 ≤ (Heater.step chip ev).temperature ∧ (Heater.step chip ev).temperature ≤ 50 := by
  cases ev with
  | tick =>
    refine ⟨?_, Heater.update_temperature_bounds chip hp h⟩
    simp only [Heater.step, Heater.chip_timer_callback, Heater.update_temperature]
    split <;> exact hp
  | control value => exact ⟨hp, h⟩

/-- Along any event sequence from a state with non-negative power and a
temperature between ambient and the cap, the temperature stays there. -/
theorem Heater.run_preserves (evs : List Heater.Event) :
    ∀ chip : Heater.chip_state_t, 0 ≤ chip.power_watts →
      (24 ≤ chip.temperature ∧ chip.temperature ≤ 50) →
      24 ≤ (Heater.run chip evs).temperature ∧ (Heater.run chip evs).temperature ≤ 50 := by
  induction evs with
  | nil => intro chip _ h; exact h
  | cons ev evs ih =>
    intro chip hp h
    obtain ⟨hp1, h1⟩ := Heater.step_preserves chip ev hp h
    exact ih (Heater.step chip ev) hp1 h1

/-- C1 (as stated, refuted): with the configured power -1000, one control change to
HIGH followed by one tick leaves the temperature at 19, below 20.0. -/
theorem C1_heater_clamp_counterexample :
    (Heater.run (Heater.chip_init (-1000))
      [Heater.Event.control HIGH, Heater.Event.tick]).temperature = 19 ∧
    ¬ (∀ (power : ℚ) (evs : List Heater.Event),
        20 ≤ (Heater.run (Heater.chip_init power) (evs ++ [Heater.Event.tick])).temperature ∧
        (Heater.run (Heater.chip_init power) (evs ++ [Heater.Event.tick])).temperature ≤ 50) := by
  have h19 : (Heater.run (Heater.chip_init (-1000))
      [Heater.Event.control HIGH, Heater.Event.tick]).temperature = 19 := by decide!
  refine ⟨h19, fun hall => ?_⟩
  have h := (hall (-1000) [Heater.Event.control HIGH]).1
  have h2 : [Heater.Event.control HIGH] ++ [Heater.Event.tick]
      = [Heater.Event.control HIGH, Heater.Event.tick] := rfl
  rw [h2, h19] at h
  norm_num at h

/-- C1 (amended): for every configured power that is not negative and every finite
sequence of ticks and control changes applied to the initial heater state, the
temperature after every tick lies in [20.0, 50.0]. -/
theorem C1_heater_clamp (power : ℚ) (hp : 0 ≤ power) (evs : List Heater.Event) :
    20 ≤ (Heater.run (Heater.chip_init power) (evs ++ [Heater.Event.tick])).temperature ∧
    (Heater.run (Heater.chip_init power) (evs ++ [Heater.Event.tick])).temperature ≤ 50 := by
  have h := Heater.run_preserves (evs ++ [Heater.Event.tick]) (Heater.chip_init power) hp
    (by simp only [Heater.chip_init, Heater.AMBIENT_TEMP]; norm_num)
  exact ⟨by linarith [h.1], h.2⟩

/-- Witness of C1 (amended) at the default power 50 and the events
control HIGH, tick, tick, control LOW. -/
theorem C1_heater_clamp_witness :
    (0 : ℚ) ≤ 50 ∧
    20 ≤ (Heater.run (Heater.chip_init 50)
      ([Heater.Event.control HIGH, Heater.Event.tick, Heater.Event.tick,
        Heater.Event.control LOW] ++ [Heater.Event.tick])).temperature ∧
    (Heater.run (Heater.chip_init 50)
      ([Heater.Event.control HIGH, Heater.Event.tick, Heater.Event.tick,
        Heater.Event.control LOW] ++ [Heater.Event.tick])).temperature ≤ 50 :=
  ⟨by norm_num, C1_heater_clamp 50 (by norm_num) _⟩

/-- The anti-windup clamp of the controller tick: the stored integral is the
accumulated value clamped into [-10, 10]. -/
theorem Controller.pid_integral (chip : Controller.chip_state_t) (temp_adc : Nat)
    (setpoint_attr : ℚ) :
    (Controller.pid chip temp_adc setpoint_attr).1.integral =
      max (-10) (min 10 (chip.integral + (setpoint_attr - Controller.adc_to_temp temp_adc))) := by
  simp only [Controller.pid, Controller.UPDATE_INTERVAL_US]
  have h1 : ((1000000 : ℚ) / 1000000) = 1 := by norm_num
  rw [h1, mul_one]
  set x := chip.integral + (setpoint_attr - Controller.adc_to_temp temp_adc) with hx
  by_cases h : x > 10
  · rw [if_pos h, if_neg (by norm_num), min_eq_left (le_of_lt h), max_eq_right (by norm_num)]
  · rw [if_neg h, min_eq_right (le_of_not_lt h)]
    by_cases h2 : x < -10
    · rw [if_pos h2, max_eq_left (le_of_lt h2)]
    · rw [if_neg h2, max_eq_right (le_of_not_lt h2)]

/-- C2: after a controller tick from any prior state, with any setpoint and any ADC
reading, the stored integral lies in [-10, 10]; and from the initial state with
setpoint 37 and the ADC reading held at 0 (20.0 degrees) the integral is at most 10
after any number of ticks. -/
theorem C2_controller_anti_windup :
    (∀ (chip : Controller.chip_state_t) (temp_adc : Nat) (setpoint_attr : ℚ),
      -10 ≤ (Controller.chip_timer_callback chip temp_adc setpoint_attr).1.integral ∧
      (Controller.chip_timer_callback chip temp_adc setpoint_attr).1.integral ≤ 10) ∧
    (∀ n : Nat, (Controller.ticks 37 0 n (Controller.chip_init 37)).integral ≤ 10) := by
  have hgen : ∀ (chip : Controller.chip_state_t) (temp_adc : Nat) (setpoint_attr : ℚ),
      -10 ≤ (Controller.chip_timer_callback chip temp_adc setpoint_attr).1.integral ∧
      (Controller.chip_timer_callback chip temp_adc setpoint_attr).1.integral ≤ 10 := by
    intro chip temp_adc setpoint_attr
    have h : (Controller.chip_timer_callback chip temp_adc setpoint_attr).1 =
        (Controller.pid chip temp_adc setpoint_attr).1 := rfl
    rw [h, Controller.pid_integral]
    exact ⟨le_max_left _ _, max_le (by norm_num) (min_le_left _ _)⟩
  refine ⟨hgen, fun n => ?_⟩
  cases n with
  | zero => simp only [Controller.ticks, Controller.chip_init]; norm_num
  | succ n => exact (hgen _ 0 37).2

/-- On values in the range of `uint32_t` the conversion is the integer part. -/
theorem to_uint32_eq_floor (x : ℚ) (h0 : 0 ≤ x) (h1 : x < 2 ^ 32) :
    to_uint32 x = ⌊x⌋₊ := by
  unfold to_uint32
  rw [if_pos h0]
  have hf0 : 0 ≤ ⌊x⌋ := Int.floor_nonneg.mpr h0
  have hf1 : ⌊x⌋ < 2 ^ 32 := by
    have : (⌊x⌋ : ℚ) < ((2 ^ 32 : Int) : ℚ) := by
      push_cast
      exact lt_of_le_of_lt (Int.floor_le x) h1
    exact_mod_cast this
  rw [Int.emod_eq_of_lt hf0 hf1]
  rfl

/-- Inside the mapped range the DAC value is the integer part of the scaled,
normalised temperature. -/
theorem Heater.dac_value_mid (t : ℚ) (h0 : 20 ≤ t) (h1 : t ≤ 50) :
    Heater.dac_value t = ⌊(t - 20) / 30 * 4095⌋₊ := by
  have hn0 : ¬ ((t - 20) / 30 < 0) := not_lt.mpr (by apply div_nonneg <;> linarith)
  have hn1 : ¬ ((t - 20) / 30 > 1) := by
    rw [gt_iff_lt, not_lt, div_le_one (by norm_num)]
    linarith
  have hx0 : 0 ≤ (t - 20) / 30 * 4095 := by
    apply mul_nonneg (div_nonneg (by linarith) (by norm_num)) (by norm_num)
  have hx1 : (t - 20) / 30 * 4095 < 2 ^ 32 := by
    have : (t - 20) / 30 ≤ 1 := not_lt.mp hn1
    nlinarith
  simp only [Heater.dac_value, if_neg hn0, if_neg hn1]
  exact to_uint32_eq_floor _ hx0 hx1

/-- At or below 20.0 the DAC value is 0. -/
theorem Heater.dac_value_low (t : ℚ) (h : t ≤ 20) : Heater.dac_value t = 0 := by
  rcases eq_or_lt_of_le h with h | h
  · subst h
    decide!
  · have hn0 : (t - 20) / 30 < 0 := div_neg_of_neg_of_pos (by linarith) (by norm_num)
    simp only [Heater.dac_value, if_pos hn0]
    decide!

/-- At or above 50.0 the DAC value is 4095. -/
theorem Heater.dac_value_high (t : ℚ) (h : 50 ≤ t) : Heater.dac_value t = 4095 := by
  rcases eq_or_lt_of_le h with h | h
  · subst h
    decide!
  · have hn0 : ¬ ((t - 20) / 30 < 0) := not_lt.mpr (by apply div_nonneg <;> linarith)
    have hn1 : (t - 20) / 30 > 1 := by
      rw [gt_iff_lt, one_lt_div (by norm_num)]
      linarith
    simp only [Heater.dac_value, if_neg hn0, if_pos hn1]
    decide!

/-- The DAC value never exceeds 4095. -/
theorem Heater.dac_value_le (t : ℚ) : Heater.dac_value t ≤ 4095 := by
  rcases le_total t 20 with h | h
  · rw [Heater.dac_value_low t h]
    norm_num
  · rcases le_total 50 t with h2 | h2
    · rw [Heater.dac_value_high t h2]
    · rw [Heater.dac_value_mid t h h2]
      apply Nat.floor_le_of_le
      push_cast
      have : (t - 20) / 30 ≤ 1 := by
        rw [div_le_one (by norm_num)]
        linarith
      linarith

/-- C8: the analog output mapping sends 20.0 to 0, 50.0 to 4095 and 35.0 to 2047,
which is within 1 of 2047. -/
theorem C8_dac_reference_points :
    Heater.dac_value 20 = 0 ∧ Heater.dac_value 50 = 4095 ∧
    Heater.dac_value 35 = 2047 ∧
    (2047 - 1 ≤ Heater.dac_value 35 ∧ Heater.dac_value 35 ≤ 2047 + 1) := by
  decide!

/-- C9: for every heater state, whatever its temperature, power and latched
command, the value a tick writes to the analog output pin lies in [0, 4095]. -/
theorem C9_dac_range (chip : Heater.chip_state_t) :
    0 ≤ (Heater.chip_timer_callback chip).2 ∧ (Heater.chip_timer_callback chip).2 ≤ 4095 :=
  ⟨Nat.zero_le _, Heater.dac_value_le _⟩

/-- The first 240 heater ticks of the wired scenario, evaluated: the temperature
is at most 45, below 30 before tick 26 and at least 30 from tick 26 on. -/
theorem Loop.first_240_ticks :
    ∀ k : Nat, k ≤ 240 →
      Loop.temperature k ≤ 45 ∧
      (k < 26 → Loop.temperature k < 30) ∧
      (26 ≤ k → 30 ≤ Loop.temperature k) := by
  decide!

/-- C5: in the wired scenario (power 50.0 from 24.0, setpoint 37.0), over the first
120 simulated seconds (240 heater ticks) the temperature never exceeds 45.0 after
any tick and, once it has reached 30.0, never falls below 30.0 again. -/
theorem C5_closed_loop_bounded (k : Nat) (hk : k ≤ 240) :
    Loop.temperature k ≤ 45 ∧
    (∀ j : Nat, j ≤ k → 30 ≤ Loop.temperature j → 30 ≤ Loop.temperature k) := by
  refine ⟨(Loop.first_240_ticks k hk).1, fun j hj h30 => ?_⟩
  have hj26 : 26 ≤ j := by
    by_contra hlt
    have := (Loop.first_240_ticks j (le_trans hj hk)).2.1 (Nat.lt_of_not_le hlt)
    linarith
  exact (Loop.first_240_ticks k hk).2.2 (le_trans hj26 hj)

/-- Witness of C5 at heater tick 120 (60 simulated seconds). -/
theorem C5_closed_loop_bounded_witness :
    120 ≤ 240 ∧ Loop.temperature 120 ≤ 45 ∧
    (∀ j : Nat, j ≤ 120 → 30 ≤ Loop.temperature j → 30 ≤ Loop.temperature 120) :=
  ⟨by decide, C5_closed_loop_bounded 120 (by decide)⟩

/-- The callback is the control law of lines 68-80 applied to the temperature read
from the ADC and the setpoint read from the attribute. -/
theorem Controller.chip_timer_callback_eq (chip : Controller.chip_state_t) (temp_adc : Nat)
    (setpoint_attr : ℚ) :
    Controller.chip_timer_callback chip temp_adc setpoint_attr =
      ({ chip with
          current_temp := Controller.adc_to_temp temp_adc,
          setpoint := setpoint_attr,
          integral := (Controller.pid_step chip (Controller.adc_to_temp temp_adc)
            setpoint_attr).integral,
          last_error := (Controller.pid_step chip (Controller.adc_to_temp temp_adc)
            setpoint_attr).error },
        if (Controller.pid_step chip (Controller.adc_to_temp temp_adc)
            setpoint_attr).heater_on then HIGH else LOW) := rfl

/-- The output of the control law in closed form. -/
theorem Controller.pid_step_output (chip : Controller.chip_state_t) (current_temp setpoint : ℚ) :
    (Controller.pid_step chip current_temp setpoint).output =
      3 * (setpoint - current_temp)
        + (1 / 2) * max (-10) (min 10 (chip.integral + (setpoint - current_temp)))
        - chip.last_error := by
  have hI : (Controller.pid_step chip current_temp setpoint).integral =
      max (-10) (min 10 (chip.integral + (setpoint - current_temp))) := by
    simp only [Controller.pid_step, Controller.UPDATE_INTERVAL_US]
    have h1 : ((1000000 : ℚ) / 1000000) = 1 := by norm_num
    rw [h1, mul_one]
    by_cases h : chip.integral + (setpoint - current_temp) > 10
    · rw [if_pos h, if_neg (by norm_num), min_eq_left (le_of_lt h),
        max_eq_right (by norm_num)]
    · rw [if_neg h, min_eq_right (le_of_not_lt h)]
      by_cases h2 : chip.integral + (setpoint - current_temp) < -10
      · rw [if_pos h2, max_eq_left (le_of_lt h2)]
      · rw [if_neg h2, max_eq_right (le_of_not_lt h2)]
  have hdef : (Controller.pid_step chip current_temp setpoint).output =
      Controller.KP * (setpoint - current_temp)
        + Controller.KI * (Controller.pid_step chip current_temp setpoint).integral
        + Controller.KD * (((setpoint - current_temp) - chip.last_error)
            / (Controller.UPDATE_INTERVAL_US / 1000000)) := rfl
  rw [hdef, hI]
  simp only [Controller.KP, Controller.KI, Controller.KD, Controller.UPDATE_INTERVAL_US]
  norm_num
  ring

/-- C11: on the first controller tick (integral = 0, last_error = 0) with setpoint
37.0 and current_temp 36.5 the control law computes error 0.5, derivative 0.5,
integral 0.5 (not clamped), output 1.75 and heater_on = true; the two ADC readings
next to 36.5 (2252 and 2253) make the callback write HIGH as well. -/
theorem C11_threshold_determinism :
    (Controller.pid_step (Controller.chip_init 37) (73 / 2) 37).error = 1 / 2 ∧
    (Controller.pid_step (Controller.chip_init 37) (73 / 2) 37).derivative = 1 / 2 ∧
    (Controller.pid_step (Controller.chip_init 37) (73 / 2) 37).integral = 1 / 2 ∧
    (Controller.pid_step (Controller.chip_init 37) (73 / 2) 37).output = 7 / 4 ∧
    (Controller.pid_step (Controller.chip_init 37) (73 / 2) 37).heater_on = true ∧
    (Controller.chip_timer_callback (Controller.chip_init 37) 2252 37).2 = HIGH ∧
    (Controller.chip_timer_callback (Controller.chip_init 37) 2253 37).2 = HIGH := by
  decide!

/-- C12: delivering the same level twice gives the same state as delivering it
once, sets is_on to (level == HIGH) and leaves temperature and power unchanged. -/
theorem C12_idempotent_edges (chip : Heater.chip_state_t) (value : Nat) :
    Heater.on_control_change (Heater.on_control_change chip value) value =
      Heater.on_control_change chip value ∧
    (Heater.on_control_change chip value).is_on = decide (value = HIGH) ∧
    (Heater.on_control_change chip value).temperature = chip.temperature ∧
    (Heater.on_control_change chip value).power_watts = chip.power_watts ∧
    (Heater.on_control_change (Heater.on_control_change chip value) value).temperature =
      chip.temperature :=
  ⟨rfl, rfl, rfl, rfl, rfl⟩

/-- C13: a heater tick leaves is_on and power_watts unchanged, and a control change
leaves temperature and power_watts unchanged. -/
theorem C13_heater_frame (chip : Heater.chip_state_t) (value : Nat) :
    (Heater.chip_timer_callback chip).1.is_on = chip.is_on ∧
    (Heater.chip_timer_callback chip).1.power_watts = chip.power_watts ∧
    (Heater.on_control_change chip value).temperature = chip.temperature ∧
    (Heater.on_control_change chip value).power_watts = chip.power_watts := by
  refine ⟨?_, ?_, rfl, rfl⟩
  · simp only [Heater.chip_timer_callback, Heater.update_temperature]
    split <;> rfl
  · simp only [Heater.chip_timer_callback, Heater.update_temperature]
    split <;> rfl

/-- C14: two controller states that agree on integral and last_error (and on the
never written last_update_time) but hold any stored setpoint and current_temp give,
for the same attribute value and ADC reading, the same command and the same
resulting state, whose setpoint is the attribute value and whose current_temp is
the mapped ADC reading. -/
theorem C14_setpoint_reread (c1 c2 : Controller.chip_state_t) (temp_adc : Nat)
    (setpoint_attr : ℚ) (hI : c1.integral = c2.integral)
    (hE : c1.last_error = c2.last_error)
    (hU : c1.last_update_time = c2.last_update_time) :
    Controller.chip_timer_callback c1 temp_adc setpoint_attr =
      Controller.chip_timer_callback c2 temp_adc setpoint_attr ∧
    (Controller.chip_timer_callback c1 temp_adc setpoint_attr).1.setpoint = setpoint_attr ∧
    (Controller.chip_timer_callback c1 temp_adc setpoint_attr).1.current_temp =
      Controller.adc_to_temp temp_adc := by
  refine ⟨?_, rfl, rfl⟩
  simp only [Controller.chip_timer_callback, Controller.pid, hI, hE, hU]

/-- Witness of C14: stored setpoints 37 and 25, stored temperatures 36.5 and 40,
attribute 38, ADC reading 2000. -/
theorem C14_setpoint_reread_witness :
    Controller.chip_timer_callback
        { current_temp := 73 / 2, setpoint := 37, integral := 3, last_error := 1,
          last_update_time := 0 } 2000 38 =
      Controller.chip_timer_callback
        { current_temp := 40, setpoint := 25, integral := 3, last_error := 1,
          last_update_time := 0 } 2000 38 ∧
    (Controller.chip_timer_callback
        { current_temp := 73 / 2, setpoint := 37, integral := 3, last_error := 1,
          last_update_time := 0 } 2000 38).1.setpoint = 38 ∧
    (Controller.chip_timer_callback
        { current_temp := 73 / 2, setpoint := 37, integral := 3, last_error := 1,
          last_update_time := 0 } 2000 38).1.current_temp =
      Controller.adc_to_temp 2000 :=
  C14_setpoint_reread _ _ 2000 38 rfl rfl rfl

/-- C16: for a power that is not negative, 24.0 <= temperature <= 50.0 holds in the
initial heater state, is preserved by every tick (with is_on true or false) and by
every control change, and so holds in every reachable state. -/
theorem C16_ambient_floor (power : ℚ) (hp : 0 ≤ power) :
    (24 ≤ (Heater.chip_init power).temperature ∧ (Heater.chip_init power).temperature ≤ 50) ∧
    (∀ chip : Heater.chip_state_t, chip.power_watts = power →
      24 ≤ chip.temperature ∧ chip.temperature ≤ 50 →
      24 ≤ (Heater.chip_timer_callback chip).1.temperature ∧
        (Heater.chip_timer_callback chip).1.temperature ≤ 50) ∧
    (∀ (chip : Heater.chip_state_t) (value : Nat),
      24 ≤ chip.temperature ∧ chip.temperature ≤ 50 →
      24 ≤ (Heater.on_control_change chip value).temperature ∧
        (Heater.on_control_change chip value).temperature ≤ 50) ∧
    (∀ evs : List Heater.Event,
      24 ≤ (Heater.run (Heater.chip_init power) evs).temperature ∧
        (Heater.run (Heater.chip_init power) evs).temperature ≤ 50) := by
  have h0 : 24 ≤ (Heater.chip_init power).temperature ∧
      (Heater.chip_init power).temperature ≤ 50 := by
    simp only [Heater.chip_init, Heater.AMBIENT_TEMP]
    norm_num
  refine ⟨h0, fun chip hpw h => ?_, fun chip value h => h, fun evs => ?_⟩
  · exact Heater.update_temperature_bounds chip (by rw [hpw]; exact hp) h
  · exact Heater.run_preserves evs (Heater.chip_init power) hp h0

/-- Witness of C16 at the default power 50. -/
theorem C16_ambient_floor_witness :
    (0 : ℚ) ≤ 50 ∧
    (24 ≤ (Heater.chip_init 50).temperature ∧ (Heater.chip_init 50).temperature ≤ 50) ∧
    (∀ chip : Heater.chip_state_t, chip.power_watts = 50 →
      24 ≤ chip.temperature ∧ chip.temperature ≤ 50 →
      24 ≤ (Heater.chip_timer_callback chip).1.temperature ∧
        (Heater.chip_timer_callback chip).1.temperature ≤ 50) ∧
    (∀ (chip : Heater.chip_state_t) (value : Nat),
      24 ≤ chip.temperature ∧ chip.temperature ≤ 50 →
      24 ≤ (Heater.on_control_change chip value).temperature ∧
        (Heater.on_control_change chip value).temperature ≤ 50) ∧
    (∀ evs : List Heater.Event,
      24 ≤ (Heater.run (Heater.chip_init 50) evs).temperature ∧
        (Heater.run (Heater.chip_init 50) evs).temperature ≤ 50) :=
  ⟨by norm_num, C16_ambient_floor 50 (by norm_num)⟩

/-- The DAC value is the integer part of 4095 times the normalised temperature
clamped into [0, 1], for every temperature. -/
theorem Heater.dac_value_eq (t : ℚ) :
    Heater.dac_value t = ⌊min 1 (max 0 ((t - 20) / 30)) * 4095⌋₊ := by
  rcases le_total t 20 with h | h
  · rw [Heater.dac_value_low t h]
    have h1 : (t - 20) / 30 ≤ 0 := div_nonpos_of_nonpos_of_nonneg (by linarith) (by norm_num)
    rw [max_eq_left h1, min_eq_right (by norm_num)]
    simp
  · rcases le_total 50 t with h2 | h2
    · rw [Heater.dac_value_high t h2]
      have h1 : 1 ≤ (t - 20) / 30 := by
        rw [le_div_iff₀ (by norm_num)]
        linarith
      rw [max_eq_right (by linarith), min_eq_left h1]
      norm_num
    · rw [Heater.dac_value_mid t h h2]
      have h0 : 0 ≤ (t - 20) / 30 := div_nonneg (by linarith) (by norm_num)
      have h1 : (t - 20) / 30 ≤ 1 := by
        rw [div_le_one (by norm_num)]
        linarith
      rw [max_eq_right h0, min_eq_right h1]

/-- C17: the DAC mapping is monotone, sends every temperature at or below 20.0 to 0
and every temperature at or above 50.0 to 4095. -/
theorem C17_dac_monotone (T1 T2 T : ℚ) (h : T1 ≤ T2) :
    Heater.dac_value T1 ≤ Heater.dac_value T2 ∧
    (T ≤ 20 → Heater.dac_value T = 0) ∧
    (50 ≤ T → Heater.dac_value T = 4095) := by
  refine ⟨?_, Heater.dac_value_low T, Heater.dac_value_high T⟩
  rw [Heater.dac_value_eq, Heater.dac_value_eq]
  apply Nat.floor_mono
  have hd : (T1 - 20) / 30 ≤ (T2 - 20) / 30 :=
    div_le_div_of_nonneg_right (by linarith) (by norm_num)
  have hm : min 1 (max 0 ((T1 - 20) / 30)) ≤ min 1 (max 0 ((T2 - 20) / 30)) :=
    min_le_min le_rfl (max_le_max le_rfl hd)
  linarith

/-- Witness of C17 at the temperatures 10 and 60, which saturate at the two ends. -/
theorem C17_dac_monotone_witness :
    (10 : ℚ) ≤ 60 ∧
    Heater.dac_value 10 ≤ Heater.dac_value 60 ∧
    Heater.dac_value 10 = 0 ∧
    Heater.dac_value 60 = 4095 :=
  ⟨by norm_num, (C17_dac_monotone 10 60 10 (by norm_num)).1,
    (C17_dac_monotone 10 60 10 (by norm_num)).2.1 (by norm_num),
    (C17_dac_monotone 10 60 60 (by norm_num)).2.2 (by norm_num)⟩

/-- The callback writes HIGH exactly when the output of the control law exceeds
0.5. -/
theorem Controller.command_high_iff (chip : Controller.chip_state_t) (temp_adc : Nat)
    (setpoint_attr : ℚ) :
    (Controller.chip_timer_callback chip temp_adc setpoint_attr).2 = HIGH ↔
      (Controller.pid_step chip (Controller.adc_to_temp temp_adc) setpoint_attr).output
        > 1 / 2 := by
  rw [Controller.chip_timer_callback_eq]
  have hh : (Controller.pid_step chip (Controller.adc_to_temp temp_adc)
      setpoint_attr).heater_on =
      decide ((Controller.pid_step chip (Controller.adc_to_temp temp_adc)
        setpoint_attr).output > 1 / 2) := rfl
  simp only [hh]
  by_cases h : (Controller.pid_step chip (Controller.adc_to_temp temp_adc)
      setpoint_attr).output > 1 / 2
  · rw [decide_eq_true h, if_pos rfl]
    exact ⟨fun _ => h, fun _ => rfl⟩
  · rw [decide_eq_false h, if_neg (by decide)]
    exact ⟨fun hl => absurd hl (by decide), fun hc => absurd hc h⟩

/-- C19: if a controller tick with ADC reading a commands the heater on, a tick
from the same state with the same setpoint and any reading at most a (a colder
measurement) commands it on as well. -/
theorem C19_command_monotone (chip : Controller.chip_state_t) (setpoint_attr : ℚ)
    (a b : Nat) (hba : b ≤ a)
    (hon : (Controller.chip_timer_callback chip a setpoint_attr).2 = HIGH) :
    (Controller.chip_timer_callback chip b setpoint_attr).2 = HIGH := by
  rw [Controller.command_high_iff, Controller.pid_step_output] at hon ⊢
  have hq : (b : ℚ) ≤ (a : ℚ) := by exact_mod_cast hba
  have ht : Controller.adc_to_temp b ≤ Controller.adc_to_temp a := by
    unfold Controller.adc_to_temp
    have : (b : ℚ) / 4095 ≤ (a : ℚ) / 4095 := div_le_div_of_nonneg_right hq (by norm_num)
    linarith
  have hm : max (-10) (min 10 (chip.integral + (setpoint_attr - Controller.adc_to_temp a))) ≤
      max (-10) (min 10 (chip.integral + (setpoint_attr - Controller.adc_to_temp b))) :=
    max_le_max le_rfl (min_le_min le_rfl (by linarith))
  linarith

/-- Witness of C19: from the initial state with setpoint 37, the reading 2252
(about 36.5 degrees) commands the heater on, and so does the colder reading 2000. -/
theorem C19_command_monotone_witness :
    2000 ≤ 2252 ∧
    (Controller.chip_timer_callback (Controller.chip_init 37) 2252 37).2 = HIGH ∧
    (Controller.chip_timer_callback (Controller.chip_init 37) 2000 37).2 = HIGH :=
  ⟨by decide, by decide!,
    C19_command_monotone (Controller.chip_init 37) 37 2252 2000 (by decide) (by decide!)⟩

/-! ### The closed loop holds the band -/

end IncuNest
